import Mathlib

/-!
Shallow embedding of the instance-specification synthesis engine of
CloudNativePG (`pkg/specs/pods.go`): environment configuration, probe
threshold resolution, affinity synthesis, and the extension pipeline
(structural patch overlay, lifecycle hook, self-annotation).

Go machine integers (`int32`, `int`) are modelled as `Int`; Go slices as
`List`; Go `nil` pointers as `Option`; fallible Go calls as `Except`.
External collaborators (the JSON serializer, the JSON-patch library and
the plugin client) are passed in as explicit function-valued inputs, as
the design notes of the specification prescribe for context-resolved
collaborators and global process configuration.
-/

namespace CNPG

/-- Kubernetes `corev1.EnvVar` restricted to the fields this code reads and
writes: a name and a literal value. -/
structure EnvVar where
  name : String
  value : String
deriving DecidableEq, Repr

/-- Kubernetes `corev1.EnvFromSource`, kept abstract: the engine only copies
these values around and compares them with `reflect.DeepEqual`, so an opaque
payload string is a faithful model. -/
structure EnvFromSource where
  payload : String
deriving DecidableEq, Repr

/-- Kubernetes probe object restricted to the fields `pods.go` touches:
timing fields, failure threshold, and the HTTP scheme of the handler. -/
structure Probe where
  initialDelaySeconds : Int := 0
  periodSeconds : Int := 0
  timeoutSeconds : Int := 0
  successThreshold : Int := 0
  failureThreshold : Int := 0
  httpScheme : String := ""
  httpPath : String := ""
deriving DecidableEq, Repr

/-- Kubernetes `corev1.Container` restricted to the fields the synthesis
engine reads or writes. -/
structure Container where
  name : String := ""
  image : String := ""
  env : List EnvVar := []
  envFrom : List EnvFromSource := []
  command : List String := []
  startupProbe : Probe := {}
  readinessProbe : Probe := {}
  livenessProbe : Probe := {}
deriving DecidableEq, Repr

/-- Go constant `PgDataPath` from `pods.go`. -/
def PgDataPath : String := "/var/lib/postgresql/data/pgdata"

/-- Modelled from the spec: `postgres.TemporaryDirectory` (the temp
directory constant lives in a package outside the given sources). -/
def TemporaryDirectory : String := "/controller/tmp"

/-- Modelled from the spec: `postgres.SocketDirectory` (socket directory
constant, outside the given sources). -/
def SocketDirectory : String := "/controller/run"

/-- Modelled from the spec: `postgres.ServerPort` (the database listening
port, outside the given sources). -/
def ServerPort : Int := 5432

/-- Go constant `StartupProbePeriod` from `pods.go`. -/
def StartupProbePeriod : Int := 10

/-- Go constant `ReadinessProbePeriod` from `pods.go`. -/
def ReadinessProbePeriod : Int := 10

/-- Go constant `LivenessProbePeriod` from `pods.go`. -/
def LivenessProbePeriod : Int := 10

/-- The override set a cluster may declare for one probe
(`apiv1.Probe.ApplyInto` lives outside the given sources).
Modelled from the spec: only fields explicitly set in the override replace
the corresponding default field; unset fields leave the default unchanged
(partial merge, never a full replacement). -/
structure ProbeOverride where
  initialDelaySeconds : Option Int := none
  periodSeconds : Option Int := none
  timeoutSeconds : Option Int := none
  successThreshold : Option Int := none
  failureThreshold : Option Int := none
deriving DecidableEq, Repr

/-- Modelled from the spec: the partial-merge policy of a probe override
into a default probe (`ApplyInto`): each field explicitly set replaces the
default, each unset field leaves the default unchanged. -/
def ProbeOverride.applyInto (o : ProbeOverride) (p : Probe) : Probe :=
  { p with
      initialDelaySeconds := o.initialDelaySeconds.getD p.initialDelaySeconds
      periodSeconds := o.periodSeconds.getD p.periodSeconds
      timeoutSeconds := o.timeoutSeconds.getD p.timeoutSeconds
      successThreshold := o.successThreshold.getD p.successThreshold
      failureThreshold := o.failureThreshold.getD p.failureThreshold }

/-- The per-kind probe override block `cluster.Spec.Probes`; a `none`
member is a nil pointer in Go and applies no change. -/
structure ProbesConfiguration where
  startup : Option ProbeOverride := none
  readiness : Option ProbeOverride := none
  liveness : Option ProbeOverride := none
deriving DecidableEq, Repr

/-- Label-selector requirement (`metav1.LabelSelectorRequirement`). -/
structure LabelSelectorRequirement where
  key : String
  op : String
  values : List String
deriving DecidableEq, Repr

/-- Label selector (`metav1.LabelSelector`), match-expressions part. -/
structure LabelSelector where
  matchExpressions : List LabelSelectorRequirement
deriving DecidableEq, Repr

/-- Kubernetes `corev1.PodAffinityTerm`. -/
structure PodAffinityTerm where
  labelSelector : Option LabelSelector
  topologyKey : String
deriving DecidableEq, Repr

/-- Kubernetes `corev1.WeightedPodAffinityTerm`. -/
structure WeightedPodAffinityTerm where
  weight : Int
  podAffinityTerm : PodAffinityTerm
deriving DecidableEq, Repr

/-- Kubernetes `corev1.PodAntiAffinity`: required and preferred term
lists. -/
structure PodAntiAffinity where
  requiredDuringSchedulingIgnoredDuringExecution : List PodAffinityTerm := []
  preferredDuringSchedulingIgnoredDuringExecution : List WeightedPodAffinityTerm := []
deriving DecidableEq, Repr

/-- Kubernetes `corev1.PodAffinity`: required and preferred term lists. -/
structure PodAffinity where
  requiredDuringSchedulingIgnoredDuringExecution : List PodAffinityTerm := []
  preferredDuringSchedulingIgnoredDuringExecution : List WeightedPodAffinityTerm := []
deriving DecidableEq, Repr

/-- Kubernetes `corev1.NodeAffinity`, kept abstract: the engine only copies
it through whole, never inspecting it. -/
structure NodeAffinity where
  payload : String
deriving DecidableEq, Repr

/-- Kubernetes `corev1.Affinity`: the three optional sub-objects; `none`
models a Go nil pointer. -/
structure Affinity where
  podAffinity : Option PodAffinity := none
  podAntiAffinity : Option PodAntiAffinity := none
  nodeAffinity : Option NodeAffinity := none
deriving DecidableEq, Repr

/-- The cluster's `apiv1.AffinityConfiguration` restricted to the fields
`CreateAffinitySection` and `CreateGeneratedAntiAffinity` read. -/
structure AffinityConfiguration where
  enablePodAntiAffinity : Option Bool := none
  topologyKey : String := ""
  podAntiAffinityType : String := ""
  additionalPodAffinity : Option PodAffinity := none
  additionalPodAntiAffinity : Option PodAntiAffinity := none
  nodeAffinity : Option NodeAffinity := none
deriving DecidableEq, Repr

/-- Modelled from the spec: constant `apiv1.PodAntiAffinityTypeRequired`
(the API constants live outside the given sources; the spec names the mode
"required"). -/
def PodAntiAffinityTypeRequired : String := "required"

/-- Modelled from the spec: constant `apiv1.PodAntiAffinityTypePreferred`
(the API constants live outside the given sources; the spec names the mode
"preferred"). -/
def PodAntiAffinityTypePreferred : String := "preferred"

/-- Modelled from the spec: label key `utils.ClusterLabelName` (cluster
identity label, defined outside the given sources). -/
def ClusterLabelName : String := "cnpg.io/cluster"

/-- Modelled from the spec: label key `utils.PodRoleLabelName` (instance
role label, defined outside the given sources). -/
def PodRoleLabelName : String := "cnpg.io/podRole"

/-- Modelled from the spec: label value `utils.PodRoleInstance`, the role
recorded on every instance. -/
def PodRoleInstance : String := "instance"

/-- Modelled from the spec: annotation key `utils.ClusterSerialAnnotationName`
recording the instance serial. -/
def ClusterSerialAnnotationName : String := "cnpg.io/nodeSerial"

/-- Modelled from the spec: annotation key `utils.PodEnvHashAnnotationName`
recording the environment content hash. -/
def PodEnvHashAnnotationName : String := "cnpg.io/podEnvHash"

/-- Modelled from the spec: annotation key `utils.PodSpecAnnotationName`
under which the resolved specification snapshot is stored. -/
def PodSpecAnnotationName : String := "cnpg.io/podSpec"

/-- Modelled from the spec: annotation key `utils.PodPatchAnnotationName`
carrying the user structural-patch document on the cluster. -/
def PodPatchAnnotationName : String := "cnpg.io/podPatch"

/-- The process-wide operator configuration snapshot
(`configuration.Current`), threaded in explicitly as the design notes of
the specification prescribe. -/
structure OperatorConfiguration where
  standbyTCPUserTimeout : Int := 0
  createAnyService : Bool := false
deriving DecidableEq, Repr

/-- The cluster specification restricted to the fields the synthesis
engine reads. -/
structure ClusterSpec where
  env : List EnvVar := []
  envFrom : List EnvFromSource := []
  affinity : AffinityConfiguration := {}
  probes : Option ProbesConfiguration := none
  livenessProbeTimeout : Option Int := none
  priorityClassName : String := ""
  schedulerName : String := ""
  maxStartDelay : Int := 0
  maxStopDelay : Int := 0
deriving DecidableEq, Repr

/-- The cluster resource restricted to the fields the synthesis engine
reads: identity (name and namespace `ns`), annotations, the spec, the
running image and the metrics-TLS switch. -/
structure Cluster where
  name : String := ""
  ns : String := ""
  annotations : List (String × String) := []
  spec : ClusterSpec := {}
  statusImage : String := ""
  metricsTLSEnabled : Bool := false
deriving DecidableEq, Repr

/-- Go map read `m[k]` over an association list: the value stored at `k`,
or the empty string when absent (Go's zero value). -/
def lookupAnn (anns : List (String × String)) (key : String) : String :=
  match anns.find? (fun kv => kv.1 = key) with
  | some kv => kv.2
  | none => ""

/-- Go map write `m[k] = v` over an association list: replaces any earlier
binding of `k`. -/
def setAnn (anns : List (String × String)) (key value : String) : List (String × String) :=
  (key, value) :: anns.filter (fun kv => kv.1 ≠ key)

/-- `EnvConfig` from `pods.go`: ordered environment entries, ordered
environment-source references, and the content hash. -/
structure EnvConfig where
  envVars : List EnvVar
  envFrom : List EnvFromSource
  hash : String
deriving DecidableEq, Repr

/-- Modelled from the spec: `hash.ComputeHash` (outside the given sources)
is a deterministic content hash over the ordered entries and sources; any
deterministic, order-sensitive function of them is a faithful model. -/
def ComputeHash (vars : List EnvVar) (froms : List EnvFromSource) : String :=
  String.intercalate ";" (vars.map fun v => v.name ++ "=" ++ v.value)
    ++ "|" ++ String.intercalate ";" (froms.map (fun f => f.payload))

/-- `EnvConfig.IsEnvEqual` from `pods.go`: order-sensitive element-wise
comparison (`slices.EqualFunc` with `reflect.DeepEqual`) of the
container's env-from list and env list against the EnvConfig's. -/
def EnvConfig.IsEnvEqual (c : EnvConfig) (container : Container) : Bool :=
  if ¬ (container.envFrom = c.envFrom) then false
  else container.env = c.envVars

/-- `CreatePodEnvConfig` from `pods.go`: the fixed baseline entries, then
the cluster's declared entries, then the conditional standby TCP timeout
entry; the env-from sources are copied from the cluster; the hash is
computed over the result. -/
def CreatePodEnvConfig (cfg : OperatorConfiguration) (cluster : Cluster) (podName : String) : EnvConfig :=
  let baseVars : List EnvVar :=
    [ { name := "PGDATA", value := PgDataPath },
      { name := "POD_NAME", value := podName },
      { name := "NAMESPACE", value := cluster.ns },
      { name := "CLUSTER_NAME", value := cluster.name },
      { name := "PSQL_HISTORY", value := TemporaryDirectory ++ "/.psql_history" },
      { name := "PGPORT", value := toString ServerPort },
      { name := "PGHOST", value := SocketDirectory },
      { name := "TMPDIR", value := TemporaryDirectory } ]
  let envVars := baseVars ++ cluster.spec.env
  let envVars :=
    if cfg.standbyTCPUserTimeout ≠ 0 then
      envVars ++ [ { name := "CNPG_STANDBY_TCP_USER_TIMEOUT",
                     value := toString cfg.standbyTCPUserTimeout } ]
    else envVars
  { envVars := envVars
    envFrom := cluster.spec.envFrom
    hash := ComputeHash envVars cluster.spec.envFrom }

/-- `getFailureThreshold` from `pods.go`: 1 when the delay does not exceed
the period, otherwise `math.Ceil(startupDelay / period)`. For the `int32`
inputs of the source, the `float64` division admits an absolute error below
the distance of any non-integral quotient to the integer below it, so the
exact rational ceiling is a faithful model. -/
def getFailureThreshold (startupDelay period : Int) : Int :=
  if startupDelay ≤ period then 1
  else ⌈(startupDelay : ℚ) / (period : ℚ)⌉

/-- Modelled from the spec: `url.PathStartup`, the fixed internal startup
endpoint (defined outside the given sources). -/
def PathStartup : String := "/startupz"

/-- Modelled from the spec: `url.PathReady`, the fixed internal readiness
endpoint (defined outside the given sources). -/
def PathReady : String := "/readyz"

/-- Modelled from the spec: `url.PathHealth`, the fixed internal liveness
endpoint (defined outside the given sources). -/
def PathHealth : String := "/healthz"

/-- `ensureCustomProbesConfiguration` from `pods.go`: applies the cluster's
probe overrides into the container's probes; a missing probes block, or a
missing per-kind override, changes nothing. -/
def ensureCustomProbesConfiguration (cluster : Cluster) (container : Container) : Container :=
  match cluster.spec.probes with
  | none => container
  | some probes =>
    { container with
        livenessProbe := (probes.liveness.getD {}).applyInto container.livenessProbe
        readinessProbe := (probes.readiness.getD {}).applyInto container.readinessProbe
        startupProbe := (probes.startup.getD {}).applyInto container.startupProbe }

/-- Modelled from the spec: `cluster.GetMaxStartDelay`, the requested
maximum startup delay (getter defined outside the given sources; it reads
the declared value). -/
def Cluster.GetMaxStartDelay (c : Cluster) : Int := c.spec.maxStartDelay

/-- The default postgres container literal of `createPostgresContainers`
(`pods.go`), restricted to the modelled container fields: the three
default probes (periods 10, timeouts 5, thresholds unset) against the
fixed internal endpoints. -/
def basePostgresContainer (cluster : Cluster) (envConfig : EnvConfig) : Container :=
  { name := "postgres"
    image := cluster.statusImage
    env := envConfig.envVars
    envFrom := envConfig.envFrom
    command := ["/controller/manager", "instance", "run"]
    startupProbe := { periodSeconds := StartupProbePeriod, timeoutSeconds := 5, httpPath := PathStartup }
    readinessProbe := { timeoutSeconds := 5, periodSeconds := ReadinessProbePeriod, httpPath := PathReady }
    livenessProbe := { periodSeconds := LivenessProbePeriod, timeoutSeconds := 5, httpPath := PathHealth } }

/-- The `enableHTTPS` mutation of `createPostgresContainers` (`pods.go`):
flip the three probe schemes to HTTPS and append the status-port TLS flag
to the command. -/
def applyHTTPSConfiguration (enableHTTPS : Bool) (c : Container) : Container :=
  if enableHTTPS then
    { c with
        startupProbe := { c.startupProbe with httpScheme := "HTTPS" }
        livenessProbe := { c.livenessProbe with httpScheme := "HTTPS" }
        readinessProbe := { c.readinessProbe with httpScheme := "HTTPS" }
        command := c.command ++ ["--status-port-tls"] }
  else c

/-- The `IsMetricsTLSEnabled` mutation of `createPostgresContainers`
(`pods.go`): append the metrics-port TLS flag to the command. -/
def applyMetricsTLSConfiguration (cluster : Cluster) (c : Container) : Container :=
  if cluster.metricsTLSEnabled then { c with command := c.command ++ ["--metrics-port-tls"] }
  else c

/-- The postgres container of `createPostgresContainers` (`pods.go`) after
the HTTPS and metrics-TLS mutations and the custom probe override merge,
but before the failure-threshold resolution (`addManagerLoggingOptions`,
defined outside the given sources, appends only log-level command flags
and touches no probe; it is omitted). -/
def mergedPostgresContainer (cluster : Cluster) (envConfig : EnvConfig) (enableHTTPS : Bool) : Container :=
  ensureCustomProbesConfiguration cluster
    (applyMetricsTLSConfiguration cluster
      (applyHTTPSConfiguration enableHTTPS (basePostgresContainer cluster envConfig)))

/-- The failure-threshold resolution of `createPostgresContainers`
(`pods.go`): resolve the startup probe threshold exactly when it is still
zero after the merge, and the liveness probe threshold exactly when the
cluster configures a liveness timeout and it is still zero after the
merge. -/
def resolveProbeThresholds (cluster : Cluster) (c : Container) : Container :=
  let c :=
    if c.startupProbe.failureThreshold = 0 then
      { c with startupProbe := { c.startupProbe with
          failureThreshold := getFailureThreshold cluster.GetMaxStartDelay c.startupProbe.periodSeconds } }
    else c
  match cluster.spec.livenessProbeTimeout with
  | some t =>
    if c.livenessProbe.failureThreshold = 0 then
      { c with livenessProbe := { c.livenessProbe with
          failureThreshold := getFailureThreshold t c.livenessProbe.periodSeconds } }
    else c
  | none => c

/-- `createPostgresContainers` from `pods.go`: the singleton main container
list, assembled from the staged mutations above in source order. -/
def createPostgresContainers (cluster : Cluster) (envConfig : EnvConfig) (enableHTTPS : Bool) : List Container :=
  [resolveProbeThresholds cluster (mergedPostgresContainer cluster envConfig enableHTTPS)]

/-- `CreateGeneratedAntiAffinity` from `pods.go`: nothing when anti-affinity
is explicitly disabled; otherwise a selector on the cluster and role labels
over the declared (or default) topology key, attached as one required term
for the "required" mode, one weight-100 preferred term for the "preferred"
mode, and nothing for any other mode (the source comment: by default,
return nil). -/
def CreateGeneratedAntiAffinity (clusterName : String) (config : AffinityConfiguration) : Option Affinity :=
  if config.enablePodAntiAffinity = some false then none
  else
    let topologyKey := if config.topologyKey.length = 0 then "kubernetes.io/hostname" else config.topologyKey
    let podAffinityTerm : PodAffinityTerm :=
      { labelSelector := some
          { matchExpressions :=
              [ { key := ClusterLabelName, op := "In", values := [clusterName] },
                { key := PodRoleLabelName, op := "In", values := [PodRoleInstance] } ] }
        topologyKey := topologyKey }
    if config.podAntiAffinityType = PodAntiAffinityTypeRequired then
      let anti : PodAntiAffinity := { requiredDuringSchedulingIgnoredDuringExecution := [podAffinityTerm] }
      some { podAntiAffinity := some anti }
    else if config.podAntiAffinityType = PodAntiAffinityTypePreferred then
      let anti : PodAntiAffinity := { preferredDuringSchedulingIgnoredDuringExecution := [ { weight := 100, podAffinityTerm := podAffinityTerm } ] }
      some { podAntiAffinity := some anti }
    else none

/-- `CreateAffinitySection` from `pods.go`: the generated anti-affinity
alone when the cluster declares no extensions; otherwise the declared pod
affinity replaces the field, the declared pod anti-affinity term lists are
appended to the generated ones, and the declared node affinity replaces
the field. -/
def CreateAffinitySection (clusterName : String) (config : AffinityConfiguration) : Option Affinity :=
  let generated := CreateGeneratedAntiAffinity clusterName config
  if config.additionalPodAffinity.isNone ∧ config.additionalPodAntiAffinity.isNone ∧ config.nodeAffinity.isNone then
    generated
  else
    let affinity := generated.getD {}
    let affinity :=
      match config.additionalPodAffinity with
      | some pa => { affinity with podAffinity := some pa }
      | none => affinity
    let affinity :=
      match config.additionalPodAntiAffinity with
      | some paa =>
        let base := affinity.podAntiAffinity.getD {}
        let mergedRequired := base.requiredDuringSchedulingIgnoredDuringExecution ++ paa.requiredDuringSchedulingIgnoredDuringExecution
        let mergedPreferred := base.preferredDuringSchedulingIgnoredDuringExecution ++ paa.preferredDuringSchedulingIgnoredDuringExecution
        let merged : PodAntiAffinity :=
          { requiredDuringSchedulingIgnoredDuringExecution := mergedRequired
            preferredDuringSchedulingIgnoredDuringExecution := mergedPreferred }
        { affinity with podAntiAffinity := some merged }
      | none => affinity
    let affinity :=
      match config.nodeAffinity with
      | some na => { affinity with nodeAffinity := some na }
      | none => affinity
    some affinity

/-- Kubernetes object metadata restricted to the fields the engine sets
(`ns` is the namespace). -/
structure ObjectMeta where
  name : String := ""
  ns : String := ""
  labels : List (String × String) := []
  annotations : List (String × String) := []
deriving DecidableEq, Repr

/-- Kubernetes `corev1.PodSpec` restricted to the fields the engine sets. -/
structure PodSpec where
  hostname : String := ""
  initContainers : List Container := []
  schedulerName : String := ""
  containers : List Container := []
  affinity : Option Affinity := none
  terminationGracePeriodSeconds : Int := 0
  priorityClassName : String := ""
  subdomain : String := ""
deriving DecidableEq, Repr

/-- Kubernetes `corev1.Pod`: metadata plus spec. -/
structure Pod where
  metadata : ObjectMeta := {}
  spec : PodSpec := {}
deriving DecidableEq, Repr

/-- Modelled from the spec: `createBootstrapContainer` (defined outside the
given sources) builds the single init container copying the bootstrap
controller. -/
def createBootstrapContainer (cluster : Cluster) : Container :=
  { name := "bootstrap-controller", image := cluster.statusImage }

/-- `createClusterPodSpec` from `pods.go`, restricted to the modelled pod
fields: hostname, the bootstrap init container, scheduler hint, the main
containers, the affinity section and the grace period. -/
def createClusterPodSpec (podName : String) (cluster : Cluster) (envConfig : EnvConfig)
    (gracePeriod : Int) (enableHTTPS : Bool) : PodSpec :=
  { hostname := podName
    initContainers := [createBootstrapContainer cluster]
    schedulerName := cluster.spec.schedulerName
    containers := createPostgresContainers cluster envConfig enableHTTPS
    affinity := CreateAffinitySection cluster.name cluster.spec.affinity
    terminationGracePeriodSeconds := gracePeriod }

/-- `GetInstanceName` from `pods.go`: the cluster name and the serial
joined by a dash. -/
def GetInstanceName (clusterName : String) (nodeSerial : Int) : String :=
  clusterName ++ "-" ++ toString nodeSerial

/-- Modelled from the spec: `utils.InstanceNameLabelName`, the label
recording the instance name. -/
def InstanceNameLabelName : String := "cnpg.io/instanceName"

/-- Modelled from the spec: `cluster.GetServiceAnyName` (defined outside
the given sources), the name of the catch-all service used as subdomain. -/
def Cluster.GetServiceAnyName (c : Cluster) : String := c.name ++ "-any"

/-- Modelled from the spec: the sandbox-profile annotation key checked by
`utils.IsAnnotationAppArmorPresent` (defined outside the given sources). -/
def AppArmorAnnotationName : String :=
  "container.apparmor.security.beta.kubernetes.io/postgres"

/-- Modelled from the spec: `utils.IsAnnotationAppArmorPresent` (defined
outside the given sources) reports whether the cluster declares a sandbox
profile annotation. -/
def IsAnnotationAppArmorPresent (anns : List (String × String)) : Bool :=
  anns.any (fun kv => kv.1 = AppArmorAnnotationName)

/-- Modelled from the spec: `utils.AnnotateAppArmor` (defined outside the
given sources) copies the cluster's sandbox-profile annotation onto the
pod's metadata; in the source it returns nothing and cannot fail. -/
def AnnotateAppArmor (meta : ObjectMeta) (anns : List (String × String)) : ObjectMeta :=
  let v := lookupAnn anns AppArmorAnnotationName
  { meta with annotations := setAnn meta.annotations AppArmorAnnotationName v }

/-- The external JSON and JSON-patch collaborators, passed in as explicit
black boxes (the specification directs that the patch machinery be an
opaque interface with decode, apply and deserialize failure modes).
`serializePod` and `serializeSpec` model `json.Marshal`, which on these
plain value types cannot fail; `deserializePod` models `json.Unmarshal`
into the existing pod, so it also receives the pod being overwritten. -/
structure PatchEngine where
  serializePod : Pod → String
  serializeSpec : PodSpec → String
  decodePatch : String → Except String String
  applyPatch : String → String → Except String String
  deserializePod : String → Pod → Except String Pod

/-- The failure modes of `buildInstance`: the decode, apply and deserialize
stages of the structural-patch overlay. -/
inductive BuildError where
  | patchDecode (msg : String)
  | patchApply (msg : String)
  | patchDeserialize (msg : String)
deriving DecidableEq, Repr

/-- `buildInstance` from `pods.go`: compose the base pod (identity, labels,
serial and env-hash annotations, pod spec), apply the optional priority
class, subdomain and sandbox annotations, then, exactly when the cluster
annotation carries a non-empty structural-patch document, run the
serialize / decode / apply / deserialize chain, each stage aborting the
whole build on failure. -/
def buildInstance (engine : PatchEngine) (cfg : OperatorConfiguration) (cluster : Cluster)
    (nodeSerial : Int) (tlsEnabled : Bool) : Except BuildError Pod :=
  let podName := GetInstanceName cluster.name nodeSerial
  let gracePeriod := cluster.spec.maxStopDelay
  let envConfig := CreatePodEnvConfig cfg cluster podName
  let podSpec := createClusterPodSpec podName cluster envConfig gracePeriod tlsEnabled
  let pod : Pod :=
    { metadata :=
        { labels :=
            [ (ClusterLabelName, cluster.name),
              (InstanceNameLabelName, podName),
              (PodRoleLabelName, PodRoleInstance) ]
          annotations :=
            [ (ClusterSerialAnnotationName, toString nodeSerial),
              (PodEnvHashAnnotationName, envConfig.hash) ]
          name := podName
          ns := cluster.ns }
      spec := podSpec }
  let pod :=
    if cluster.spec.priorityClassName ≠ "" then
      { pod with spec := { pod.spec with priorityClassName := cluster.spec.priorityClassName } }
    else pod
  let pod :=
    if cfg.createAnyService then
      { pod with spec := { pod.spec with subdomain := cluster.GetServiceAnyName } }
    else pod
  let pod :=
    if IsAnnotationAppArmorPresent cluster.annotations then
      { pod with metadata := AnnotateAppArmor pod.metadata cluster.annotations }
    else pod
  let jsonPatch := lookupAnn cluster.annotations PodPatchAnnotationName
  if jsonPatch ≠ "" then
    let serializedObject := engine.serializePod pod
    match engine.decodePatch jsonPatch with
    | .error e => .error (.patchDecode e)
    | .ok patch =>
      match engine.applyPatch patch serializedObject with
      | .error e => .error (.patchApply e)
      | .ok patched =>
        match engine.deserializePod patched pod with
        | .error e => .error (.patchDeserialize e)
        | .ok newPod => .ok newPod
  else .ok pod

/-- The value returned by the lifecycle hook: either a pod or a value of
some other, wrong shape (`client.Object` in Go). -/
inductive ClientObject where
  | pod (p : Pod)
  | other (tag : String)

/-- The optional extension client resolved from the call context, modelled
as an explicit optional input as the specification's design notes
prescribe; `lifecycleHook` is the remote "evaluate" call. -/
structure PluginClient where
  lifecycleHook : Cluster → Pod → Except String ClientObject

/-- The failure modes of `NewInstance`: a base-build (patch stage) failure,
a hook-invocation failure, or a hook response of the wrong shape. -/
inductive NewInstanceError where
  | build (e : BuildError)
  | hookInvocation (msg : String)
  | hookResponseType
deriving DecidableEq, Repr

/-- The deferred self-annotation of `NewInstance`: serialize the pod's own
final spec and store it under the pod-spec annotation key. `json.Marshal`
of a plain-data pod spec cannot fail, so the annotation is written
unconditionally on every non-nil pod. -/
def annotateWithPodSpec (engine : PatchEngine) (pod : Pod) : Pod :=
  let anns := setAnn pod.metadata.annotations PodSpecAnnotationName (engine.serializeSpec pod.spec)
  { pod with metadata := { pod.metadata with annotations := anns } }

/-- `NewInstance` from `pods.go`: build the instance, abort on build
failure; with no plugin client return the built pod self-annotated; with a
client invoke the lifecycle hook, abort on invocation failure or a
response of the wrong shape, and return the replacement pod
self-annotated. The self-annotation models the deferred closure, which
runs on every path on which a non-nil pod is returned. -/
def NewInstance (engine : PatchEngine) (cfg : OperatorConfiguration)
    (pluginClient : Option PluginClient) (cluster : Cluster)
    (nodeSerial : Int) (tlsEnabled : Bool) : Except NewInstanceError Pod :=
  match buildInstance engine cfg cluster nodeSerial tlsEnabled with
  | .error e => .error (.build e)
  | .ok pod =>
    match pluginClient with
    | none => .ok (annotateWithPodSpec engine pod)
    | some client =>
      match client.lifecycleHook cluster pod with
      | .error msg => .error (.hookInvocation msg)
      | .ok (.pod newPod) => .ok (annotateWithPodSpec engine newPod)
      | .ok (.other _) => .error .hookResponseType

/-- A concrete patch engine whose serializers print the structures and
whose patch stages succeed as identities; used to exercise the pipeline on
concrete inputs. -/
def reprEngine : PatchEngine :=
  { serializePod := fun p => toString (repr p)
    serializeSpec := fun s => toString (repr s)
    decodePatch := fun s => Except.ok s
    applyPatch := fun _ doc => Except.ok doc
    deserializePod := fun _ p => Except.ok p }

/-- A concrete patch engine whose decode stage always fails. -/
def decodeFailEngine : PatchEngine :=
  { reprEngine with decodePatch := fun _ => Except.error "bad patch" }

/-- A concrete cluster carrying a structural-patch document in its
annotations. -/
def patchedCluster : Cluster :=
  { name := "c", annotations := [(PodPatchAnnotationName, "[patch]")] }

/-- A concrete plugin client whose lifecycle hook always fails. -/
def failClient : PluginClient := ⟨fun _ _ => Except.error "boom"⟩

/-- A concrete plugin client returning a value of the wrong shape. -/
def wrongShapeClient : PluginClient := ⟨fun _ _ => Except.ok (ClientObject.other "not-a-pod")⟩

/-- A concrete sidecar container used to exercise the hook-replacement
path. -/
def sidecarContainer : Container := { name := "sidecar" }

/-- A concrete plugin client that replaces the pod by one with an extra
sidecar container appended. -/
def sidecarClient : PluginClient :=
  ⟨fun _ p =>
    let yes : PodSpec := { p.spec with containers := p.spec.containers ++ [sidecarContainer] }
    Except.ok (ClientObject.pod { p with spec := yes })⟩

/-- Reading back an annotation just written under the same key returns the
written value. -/
theorem lookupAnn_setAnn (anns : List (String × String)) (k v : String) :
    lookupAnn (setAnn anns k v) k = v := by
  simp [lookupAnn, setAnn]

/-- C7: the built EnvConfig's variable list starts with the eight baseline
entries (data directory, instance name, namespace, cluster name, history
file, listening port, socket directory, temp directory) in exactly this
relative order, followed by the cluster's user-declared entries in the
author's order, followed by exactly one operational entry exactly when the
process-wide standby TCP timeout is configured non-zero; building is a
total function. -/
theorem C7_env_config_layout (cfg : OperatorConfiguration) (cluster : Cluster) (podName : String) :
    (CreatePodEnvConfig cfg cluster podName).envVars =
      [ { name := "PGDATA", value := PgDataPath },
        { name := "POD_NAME", value := podName },
        { name := "NAMESPACE", value := cluster.ns },
        { name := "CLUSTER_NAME", value := cluster.name },
        { name := "PSQL_HISTORY", value := TemporaryDirectory ++ "/.psql_history" },
        { name := "PGPORT", value := toString ServerPort },
        { name := "PGHOST", value := SocketDirectory },
        { name := "TMPDIR", value := TemporaryDirectory } ]
      ++ cluster.spec.env
      ++ (if cfg.standbyTCPUserTimeout ≠ 0 then
            [ { name := "CNPG_STANDBY_TCP_USER_TIMEOUT", value := toString cfg.standbyTCPUserTimeout } ]
          else []) := by
  by_cases h : cfg.standbyTCPUserTimeout = 0 <;>
    simp [CreatePodEnvConfig, h]

/-- C8: the EnvConfig equality check against a container returns true
exactly when the container's environment-source list and environment
variable list are element-wise equal, in order, to the EnvConfig's; two
lists holding the same multiset of entries in different orders are
reported unequal. -/
theorem C8_env_equality_order_sensitive :
    (∀ (c : EnvConfig) (container : Container),
        c.IsEnvEqual container = true ↔
          (container.envFrom = c.envFrom ∧ container.env = c.envVars)) ∧
    (∀ (c : EnvConfig) (container : Container),
        container.env.Perm c.envVars → container.env ≠ c.envVars →
          c.IsEnvEqual container = false) := by
  constructor
  · intro c container
    by_cases h1 : container.envFrom = c.envFrom <;>
      by_cases h2 : container.env = c.envVars <;>
        simp [EnvConfig.IsEnvEqual, h1, h2]
  · intro c container _ hne
    by_cases h1 : container.envFrom = c.envFrom <;>
      simp [EnvConfig.IsEnvEqual, h1, hne]

/-- C8 witness: two environments holding the same two entries in swapped
order are reported unequal. -/
theorem C8_env_equality_order_sensitive_witness :
    EnvConfig.IsEnvEqual
      { envVars := [ { name := "A", value := "1" }, { name := "B", value := "2" } ],
        envFrom := [], hash := "" }
      { env := [ { name := "B", value := "2" }, { name := "A", value := "1" } ] } = false :=
  C8_env_equality_order_sensitive.2
    { envVars := [ { name := "A", value := "1" }, { name := "B", value := "2" } ],
      envFrom := [], hash := "" }
    { env := [ { name := "B", value := "2" }, { name := "A", value := "1" } ] }
    (by decide) (by decide)

/-- C4 counterexample: on an affinity configuration that neither disables
pod anti-affinity nor declares a mode, no generated anti-affinity
constraint is produced at all, and the whole affinity section is empty —
the mode does not default to required. -/
theorem C4_counterexample :
    ({} : AffinityConfiguration).enablePodAntiAffinity ≠ some false ∧
    ({} : AffinityConfiguration).podAntiAffinityType = "" ∧
    CreateGeneratedAntiAffinity "cluster-example" {} = none ∧
    CreateAffinitySection "cluster-example" {} = none :=
  ⟨by decide, rfl, rfl, rfl⟩

/-- C4 amended: for every affinity configuration in which pod anti-affinity
is not explicitly disabled, a generated anti-affinity constraint is present
exactly when the mode is explicitly "required" or explicitly "preferred";
an unspecified mode yields no generated constraint (there is no defaulting
to required). -/
theorem C4_no_default_anti_affinity_mode (clusterName : String) (config : AffinityConfiguration)
    (h : config.enablePodAntiAffinity ≠ some false) :
    (CreateGeneratedAntiAffinity clusterName config).isSome = true ↔
      (config.podAntiAffinityType = PodAntiAffinityTypeRequired ∨
       config.podAntiAffinityType = PodAntiAffinityTypePreferred) := by
  by_cases h1 : config.podAntiAffinityType = "required" <;>
    by_cases h2 : config.podAntiAffinityType = "preferred" <;>
      simp [CreateGeneratedAntiAffinity, h, h1, h2,
        PodAntiAffinityTypeRequired, PodAntiAffinityTypePreferred]

/-- C4 witness: with mode explicitly "required" and anti-affinity not
disabled, the generated constraint is present. -/
theorem C4_no_default_anti_affinity_mode_witness :
    ({ podAntiAffinityType := "required" } : AffinityConfiguration).enablePodAntiAffinity ≠ some false ∧
    (CreateGeneratedAntiAffinity "c" { podAntiAffinityType := "required" }).isSome = true :=
  ⟨by decide,
   (C4_no_default_anti_affinity_mode "c" { podAntiAffinityType := "required" } (by decide)).mpr
     (Or.inl rfl)⟩

/-- C10: the base build is total in the absence of a structural patch: a
cluster whose annotations carry no pod-patch document always yields a
specification and never an error, and conversely every build error can
arise only in the presence of a patch document (the patch chain is the
only source of failure; the sandboxing-annotation application is a total
function in this code). -/
theorem C10_build_total_without_patch (engine : PatchEngine) (cfg : OperatorConfiguration)
    (cluster : Cluster) (n : Int) (tls : Bool) :
    (lookupAnn cluster.annotations PodPatchAnnotationName = "" →
      ∃ p, buildInstance engine cfg cluster n tls = Except.ok p) ∧
    (∀ e, buildInstance engine cfg cluster n tls = Except.error e →
      lookupAnn cluster.annotations PodPatchAnnotationName ≠ "") := by
  constructor
  · intro hnopatch
    simp only [buildInstance, hnopatch]
    exact ⟨_, rfl⟩
  · intro e herr hnopatch
    simp only [buildInstance, hnopatch] at herr
    cases herr

/-- C10 witness: a cluster with no annotations at all builds
successfully. -/
theorem C10_build_total_without_patch_witness :
    ∃ p, buildInstance reprEngine {} {} 1 false = Except.ok p :=
  (C10_build_total_without_patch reprEngine {} {} 1 false).1 rfl

/-- A string has length zero exactly when it is the empty string. -/
theorem string_length_eq_zero_iff (s : String) : s.length = 0 ↔ s = "" := by
  constructor
  · intro h
    cases s with
    | mk data =>
      cases data with
      | nil => rfl
      | cons a l => simp [String.length] at h
  · intro h
    subst h
    rfl

/-- C3: for positive delay `d` and period `p` the resolved failure
threshold is at least 1, its total wait `threshold × p` covers `d`, it is
exactly 1 when `d ≤ p` and otherwise the smallest integer at least `d/p`;
the five documented example pairs evaluate as stated; and in the container
synthesis the resolution is applied to the startup probe exactly when its
threshold after the override merge is still zero, and to the liveness
probe exactly when the cluster configures a liveness timeout and its
threshold after the merge is still zero. -/
theorem C3_failure_threshold_resolution (d p : Int) (hd : 0 < d) (hp : 0 < p) :
    (1 ≤ getFailureThreshold d p) ∧
    (d ≤ getFailureThreshold d p * p) ∧
    (d ≤ p → getFailureThreshold d p = 1) ∧
    (p < d → ∀ k : Int, (d : ℚ) / (p : ℚ) ≤ (k : ℚ) → getFailureThreshold d p ≤ k) ∧
    getFailureThreshold 30 10 = 3 ∧
    getFailureThreshold 20 10 = 2 ∧
    getFailureThreshold 5 10 = 1 ∧
    getFailureThreshold 10 10 = 1 ∧
    getFailureThreshold 31 10 = 4 ∧
    (∀ (cluster : Cluster) (envConfig : EnvConfig) (https : Bool),
      ∃ c, createPostgresContainers cluster envConfig https = [c] ∧
        c.startupProbe.failureThreshold =
          (if (mergedPostgresContainer cluster envConfig https).startupProbe.failureThreshold = 0 then
             getFailureThreshold cluster.GetMaxStartDelay
               (mergedPostgresContainer cluster envConfig https).startupProbe.periodSeconds
           else (mergedPostgresContainer cluster envConfig https).startupProbe.failureThreshold) ∧
        c.livenessProbe.failureThreshold =
          (match cluster.spec.livenessProbeTimeout with
           | some t =>
             if (mergedPostgresContainer cluster envConfig https).livenessProbe.failureThreshold = 0 then
               getFailureThreshold t
                 (mergedPostgresContainer cluster envConfig https).livenessProbe.periodSeconds
             else (mergedPostgresContainer cluster envConfig https).livenessProbe.failureThreshold
           | none => (mergedPostgresContainer cluster envConfig https).livenessProbe.failureThreshold)) := by
  have hp0 : (0 : ℚ) < (p : ℚ) := by exact_mod_cast hp
  refine ⟨?_, ?_, ?_, ?_, ?_, ?_, ?_, ?_, ?_, ?_⟩
  · rw [getFailureThreshold]
    split
    · exact le_refl 1
    · have hpos : (0 : ℚ) < (d : ℚ) / (p : ℚ) := div_pos (by exact_mod_cast hd) hp0
      have := Int.ceil_pos.mpr hpos
      omega
  · rw [getFailureThreshold]
    split
    · omega
    · have hle : (d : ℚ) / (p : ℚ) ≤ ((⌈(d : ℚ) / (p : ℚ)⌉ : Int) : ℚ) := Int.le_ceil _
      have hq : (d : ℚ) ≤ ((⌈(d : ℚ) / (p : ℚ)⌉ : Int) : ℚ) * (p : ℚ) := by
        calc (d : ℚ) = (d : ℚ) / (p : ℚ) * (p : ℚ) := by field_simp
        _ ≤ _ := mul_le_mul_of_nonneg_right hle (le_of_lt hp0)
      exact_mod_cast hq
  · intro hdp
    rw [getFailureThreshold, if_pos hdp]
  · intro hdp k hk
    rw [getFailureThreshold, if_neg (by omega)]
    exact Int.ceil_le.mpr hk
  · rw [getFailureThreshold, if_neg (by norm_num), Int.ceil_eq_iff]
    norm_num
  · rw [getFailureThreshold, if_neg (by norm_num), Int.ceil_eq_iff]
    norm_num
  · rw [getFailureThreshold, if_pos (by norm_num)]
  · rw [getFailureThreshold, if_pos (by norm_num)]
  · rw [getFailureThreshold, if_neg (by norm_num), Int.ceil_eq_iff]
    norm_num
  · intro cluster envConfig https
    refine ⟨_, rfl, ?_, ?_⟩
    · cases hlt : cluster.spec.livenessProbeTimeout with
      | none =>
        by_cases hs : (mergedPostgresContainer cluster envConfig https).startupProbe.failureThreshold = 0 <;>
          simp [resolveProbeThresholds, hlt, hs]
      | some t =>
        by_cases hs : (mergedPostgresContainer cluster envConfig https).startupProbe.failureThreshold = 0 <;>
          by_cases hl : (mergedPostgresContainer cluster envConfig https).livenessProbe.failureThreshold = 0 <;>
            simp [resolveProbeThresholds, hlt, hs, hl]
    · cases hlt : cluster.spec.livenessProbeTimeout with
      | none =>
        by_cases hs : (mergedPostgresContainer cluster envConfig https).startupProbe.failureThreshold = 0 <;>
          simp [resolveProbeThresholds, hlt, hs]
      | some t =>
        by_cases hs : (mergedPostgresContainer cluster envConfig https).startupProbe.failureThreshold = 0 <;>
          by_cases hl : (mergedPostgresContainer cluster envConfig https).livenessProbe.failureThreshold = 0 <;>
            simp [resolveProbeThresholds, hlt, hs, hl]

/-- C3 witness: at delay 30 and period 10 the resolved threshold is 3 and
the covered wait 3 × 10 reaches the requested 30. -/
theorem C3_failure_threshold_resolution_witness :
    (0 : Int) < 30 ∧ (0 : Int) < 10 ∧
    getFailureThreshold 30 10 = 3 ∧ (30 : Int) ≤ getFailureThreshold 30 10 * 10 :=
  ⟨by decide, by decide,
   (C3_failure_threshold_resolution 30 10 (by decide) (by decide)).2.2.2.2.1,
   (C3_failure_threshold_resolution 30 10 (by decide) (by decide)).2.1⟩

/-- The generated anti-affinity selector term as the specification words
it: a label selector matching the cluster-name label and the
instance-role label, over the cluster-declared topology key or the
default host-level key when none is declared. -/
def specAntiAffinityTerm (clusterName : String) (config : AffinityConfiguration) : PodAffinityTerm :=
  { labelSelector := some
      { matchExpressions :=
          [ { key := ClusterLabelName, op := "In", values := [clusterName] },
            { key := PodRoleLabelName, op := "In", values := [PodRoleInstance] } ] }
    topologyKey := if config.topologyKey = "" then "kubernetes.io/hostname" else config.topologyKey }

/-- C5: with mode "required" the generated affinity is exactly one
required anti-affinity term carrying the cluster-name and instance-role
selector on the declared topology key, defaulting to
"kubernetes.io/hostname"; with mode "preferred" exactly one preferred term
with weight 100 and the same selector; with anti-affinity explicitly
disabled and no user extensions, no affinity object at all. -/
theorem C5_anti_affinity_shapes (clusterName : String) (config : AffinityConfiguration) :
    (config.enablePodAntiAffinity ≠ some false →
      config.podAntiAffinityType = PodAntiAffinityTypeRequired →
      CreateGeneratedAntiAffinity clusterName config =
        some ⟨none, some ⟨[specAntiAffinityTerm clusterName config], []⟩, none⟩) ∧
    (config.enablePodAntiAffinity ≠ some false →
      config.podAntiAffinityType = PodAntiAffinityTypePreferred →
      CreateGeneratedAntiAffinity clusterName config =
        some ⟨none, some ⟨[], [⟨100, specAntiAffinityTerm clusterName config⟩]⟩, none⟩) ∧
    (config.enablePodAntiAffinity = some false →
      config.additionalPodAffinity = none →
      config.additionalPodAntiAffinity = none →
      config.nodeAffinity = none →
      CreateAffinitySection clusterName config = none) := by
  have hkey : (if config.topologyKey.length = 0 then "kubernetes.io/hostname" else config.topologyKey)
      = (if config.topologyKey = "" then "kubernetes.io/hostname" else config.topologyKey) := by
    by_cases ht : config.topologyKey = ""
    · simp [ht]
    · rw [if_neg ht, if_neg (fun hl => ht ((string_length_eq_zero_iff config.topologyKey).mp hl))]
  refine ⟨?_, ?_, ?_⟩
  · intro hnd hreq
    simp [CreateGeneratedAntiAffinity, hnd, hreq, specAntiAffinityTerm, hkey]
  · intro hnd hpref
    have hne : PodAntiAffinityTypePreferred ≠ PodAntiAffinityTypeRequired := by decide
    simp [CreateGeneratedAntiAffinity, hnd, hpref, hne, specAntiAffinityTerm, hkey]
  · intro hdis hpa hpaa hna
    simp [CreateAffinitySection, CreateGeneratedAntiAffinity, hdis, hpa, hpaa, hna]

/-- C5 witness: with mode "required", no declared topology key and no
extensions, the generated affinity is the single required host-level
term. -/
theorem C5_anti_affinity_shapes_witness :
    CreateGeneratedAntiAffinity "c" { podAntiAffinityType := "required" } =
      some ⟨none, some ⟨[specAntiAffinityTerm "c" { podAntiAffinityType := "required" }], []⟩, none⟩ :=
  (C5_anti_affinity_shapes "c" { podAntiAffinityType := "required" }).1 (by decide) rfl

/-- C6: declared additional pod affinity fully replaces the pod-affinity
field; declared additional pod anti-affinity has its required and
preferred term lists appended after the generated anti-affinity terms;
declared node affinity fully replaces the node-affinity field. -/
theorem C6_extension_merge (clusterName : String) (config : AffinityConfiguration) :
    (∀ pa, config.additionalPodAffinity = some pa →
      ∃ a, CreateAffinitySection clusterName config = some a ∧ a.podAffinity = some pa) ∧
    (∀ paa, config.additionalPodAntiAffinity = some paa →
      ∃ a, CreateAffinitySection clusterName config = some a ∧
        a.podAntiAffinity = some
          ⟨(((CreateGeneratedAntiAffinity clusterName config).getD {}).podAntiAffinity.getD {}).requiredDuringSchedulingIgnoredDuringExecution
              ++ paa.requiredDuringSchedulingIgnoredDuringExecution,
            (((CreateGeneratedAntiAffinity clusterName config).getD {}).podAntiAffinity.getD {}).preferredDuringSchedulingIgnoredDuringExecution
              ++ paa.preferredDuringSchedulingIgnoredDuringExecution⟩) ∧
    (∀ na, config.nodeAffinity = some na →
      ∃ a, CreateAffinitySection clusterName config = some a ∧ a.nodeAffinity = some na) := by
  refine ⟨?_, ?_, ?_⟩
  · intro pa hpa
    cases hpaa : config.additionalPodAntiAffinity <;> cases hna : config.nodeAffinity <;>
      simp [CreateAffinitySection, hpa, hpaa, hna]
  · intro paa hpaa
    cases hpa : config.additionalPodAffinity <;> cases hna : config.nodeAffinity <;>
      simp [CreateAffinitySection, hpa, hpaa, hna]
  · intro na hna
    cases hpa : config.additionalPodAffinity <;> cases hpaa : config.additionalPodAntiAffinity <;>
      simp [CreateAffinitySection, hpa, hpaa, hna]

/-- C6 witness: a configuration declaring all three extensions yields an
affinity whose pod affinity and node affinity are the declared ones and
whose anti-affinity appends the declared terms after the generated one. -/
theorem C6_extension_merge_witness :
    ∃ a, CreateAffinitySection "c"
        { podAntiAffinityType := "required",
          additionalPodAffinity := some ⟨[⟨none, "zone-a"⟩], []⟩,
          additionalPodAntiAffinity := some ⟨[⟨none, "zone-b"⟩], []⟩,
          nodeAffinity := some ⟨"node-pool"⟩ } = some a ∧
      a.podAffinity = some ⟨[⟨none, "zone-a"⟩], []⟩ ∧
      a.nodeAffinity = some ⟨"node-pool"⟩ := by
  obtain ⟨a, ha, hpa⟩ :=
    (C6_extension_merge "c"
      { podAntiAffinityType := "required",
        additionalPodAffinity := some ⟨[⟨none, "zone-a"⟩], []⟩,
        additionalPodAntiAffinity := some ⟨[⟨none, "zone-b"⟩], []⟩,
        nodeAffinity := some ⟨"node-pool"⟩ }).1 ⟨[⟨none, "zone-a"⟩], []⟩ rfl
  obtain ⟨a2, ha2, hna⟩ :=
    (C6_extension_merge "c"
      { podAntiAffinityType := "required",
        additionalPodAffinity := some ⟨[⟨none, "zone-a"⟩], []⟩,
        additionalPodAntiAffinity := some ⟨[⟨none, "zone-b"⟩], []⟩,
        nodeAffinity := some ⟨"node-pool"⟩ }).2.2 ⟨"node-pool"⟩ rfl
  refine ⟨a, ha, hpa, ?_⟩
  have : a2 = a := by
    rw [ha] at ha2
    exact (Option.some_injective _ ha2).symm
  rw [← this]
  exact hna

/-- A concrete patch engine whose spec serializer records the container
names, making the self-annotation's content visible on concrete inputs. -/
def namesEngine : PatchEngine :=
  { serializePod := fun p => String.intercalate "," (p.spec.containers.map Container.name)
    serializeSpec := fun s => String.intercalate "," (s.containers.map Container.name)
    decodePatch := fun s => Except.ok s
    applyPatch := fun _ doc => Except.ok doc
    deserializePod := fun _ p => Except.ok p }

/-- The self-annotation read back from an annotated pod is the
serialization of that pod's own (unchanged) spec. -/
theorem lookupAnn_annotateWithPodSpec (engine : PatchEngine) (x : Pod) :
    lookupAnn (annotateWithPodSpec engine x).metadata.annotations PodSpecAnnotationName
      = engine.serializeSpec (annotateWithPodSpec engine x).spec := by
  simp [annotateWithPodSpec, lookupAnn_setAnn]

/-- C1: every pod returned by a successful synthesis carries, under the
pod-spec annotation key, exactly the serialization of its own final
specification; and when the lifecycle hook replaces the pod, the returned
(and hence annotated) pod is the replacement, so the snapshot reflects the
post-hook specification, not the pre-hook one. -/
theorem C1_self_annotation_post_hook :
    (∀ (engine : PatchEngine) (cfg : OperatorConfiguration) (client : Option PluginClient)
        (cluster : Cluster) (n : Int) (tls : Bool) (p : Pod),
      NewInstance engine cfg client cluster n tls = Except.ok p →
      lookupAnn p.metadata.annotations PodSpecAnnotationName = engine.serializeSpec p.spec) ∧
    (∀ (engine : PatchEngine) (cfg : OperatorConfiguration) (client : PluginClient)
        (cluster : Cluster) (n : Int) (tls : Bool) (pod0 q : Pod),
      buildInstance engine cfg cluster n tls = Except.ok pod0 →
      client.lifecycleHook cluster pod0 = Except.ok (ClientObject.pod q) →
      NewInstance engine cfg (some client) cluster n tls =
        Except.ok (annotateWithPodSpec engine q)) := by
  constructor
  · intro engine cfg client cluster n tls p hok
    unfold NewInstance at hok
    cases hb : buildInstance engine cfg cluster n tls with
    | error e =>
      simp only [hb] at hok
      exact Except.noConfusion hok
    | ok pod =>
      simp only [hb] at hok
      cases client with
      | none =>
        have hp : annotateWithPodSpec engine pod = p := by
          simpa using hok
        rw [← hp]
        exact lookupAnn_annotateWithPodSpec engine pod
      | some cl =>
        cases hh : cl.lifecycleHook cluster pod with
        | error msg =>
          simp only [hh] at hok
          exact Except.noConfusion hok
        | ok co =>
          simp only [hh] at hok
          cases co with
          | pod q =>
            have hp : annotateWithPodSpec engine q = p := by
              simpa using hok
            rw [← hp]
            exact lookupAnn_annotateWithPodSpec engine q
          | other tag =>
            exact Except.noConfusion hok
  · intro engine cfg client cluster n tls pod0 q hbuild hhook
    simp only [NewInstance, hbuild, hhook]

/-- C1 witness: a hook that appends a sidecar container yields a returned
pod whose self-annotation snapshot names the sidecar — the snapshot
captures the post-hook state. -/
theorem C1_self_annotation_post_hook_witness :
    ∃ p, NewInstance namesEngine {} (some sidecarClient) {} 1 false = Except.ok p ∧
      lookupAnn p.metadata.annotations PodSpecAnnotationName = namesEngine.serializeSpec p.spec ∧
      lookupAnn p.metadata.annotations PodSpecAnnotationName = "postgres,sidecar" := by
  refine ⟨_, rfl, ?_, ?_⟩
  · exact C1_self_annotation_post_hook.1 namesEngine {} (some sidecarClient) {} 1 false _ rfl
  · rfl

/-- C2: when the cluster carries a non-empty structural-patch document,
a failing decode stage, a failing apply stage, or a failing deserialize
stage each aborts the whole synthesis with the error naming that stage,
returns no specification, and produces the same outcome for every plugin
client — the lifecycle hook is never invoked. -/
theorem C2_patch_stage_aborts (engine : PatchEngine) (cfg : OperatorConfiguration)
    (cluster : Cluster) (n : Int) (tls : Bool) (patchText : String)
    (hpatch : lookupAnn cluster.annotations PodPatchAnnotationName = patchText)
    (hne : patchText ≠ "") :
    (∀ msg, engine.decodePatch patchText = Except.error msg →
      ∀ client, NewInstance engine cfg client cluster n tls =
        Except.error (NewInstanceError.build (BuildError.patchDecode msg))) ∧
    (∀ patchVal msg, engine.decodePatch patchText = Except.ok patchVal →
      (∀ doc, engine.applyPatch patchVal doc = Except.error msg) →
      ∀ client, NewInstance engine cfg client cluster n tls =
        Except.error (NewInstanceError.build (BuildError.patchApply msg))) ∧
    (∀ patchVal (g : String → String) msg,
      engine.decodePatch patchText = Except.ok patchVal →
      (∀ doc, engine.applyPatch patchVal doc = Except.ok (g doc)) →
      (∀ s x, engine.deserializePod s x = Except.error msg) →
      ∀ client, NewInstance engine cfg client cluster n tls =
        Except.error (NewInstanceError.build (BuildError.patchDeserialize msg))) := by
  refine ⟨?_, ?_, ?_⟩
  · intro msg hdec client
    have hbuild : buildInstance engine cfg cluster n tls =
        Except.error (BuildError.patchDecode msg) := by
      simp only [buildInstance, hpatch]
      rw [if_pos hne, hdec]
    cases client <;> simp [NewInstance, hbuild]
  · intro patchVal msg hdec happly client
    have hbuild : buildInstance engine cfg cluster n tls =
        Except.error (BuildError.patchApply msg) := by
      simp only [buildInstance, hpatch]
      rw [if_pos hne, hdec]
      simp [happly]
    cases client <;> simp [NewInstance, hbuild]
  · intro patchVal g msg hdec happly hdeser client
    have hbuild : buildInstance engine cfg cluster n tls =
        Except.error (BuildError.patchDeserialize msg) := by
      simp only [buildInstance, hpatch]
      rw [if_pos hne, hdec]
      simp [happly, hdeser]
    cases client <;> simp [NewInstance, hbuild]

/-- C2 witness: a malformed patch document aborts the synthesis with the
decode-stage error even in the presence of a plugin client whose hook
would fail if invoked — the hook is never reached. -/
theorem C2_patch_stage_aborts_witness :
    lookupAnn patchedCluster.annotations PodPatchAnnotationName = "[patch]" ∧
    NewInstance decodeFailEngine {} (some failClient) patchedCluster 1 false =
      Except.error (NewInstanceError.build (BuildError.patchDecode "bad patch")) :=
  ⟨rfl,
   (C2_patch_stage_aborts decodeFailEngine {} patchedCluster 1 false "[patch]" rfl
     (by decide)).1 "bad patch" rfl (some failClient)⟩

/-- C9: after a successful base build, the lifecycle-hook step behaves as
specified — no client present: the patched, self-annotated pod is
returned with no error; client call fails: a hook-invocation error and no
pod; client returns a value of the wrong shape: a response-type error and
no pod. -/
theorem C9_hook_outcomes (engine : PatchEngine) (cfg : OperatorConfiguration)
    (cluster : Cluster) (n : Int) (tls : Bool) (pod0 : Pod)
    (hbuild : buildInstance engine cfg cluster n tls = Except.ok pod0) :
    (NewInstance engine cfg none cluster n tls =
      Except.ok (annotateWithPodSpec engine pod0)) ∧
    (∀ (client : PluginClient) msg, client.lifecycleHook cluster pod0 = Except.error msg →
      NewInstance engine cfg (some client) cluster n tls =
        Except.error (NewInstanceError.hookInvocation msg)) ∧
    (∀ (client : PluginClient) tag, client.lifecycleHook cluster pod0 = Except.ok (ClientObject.other tag) →
      NewInstance engine cfg (some client) cluster n tls =
        Except.error NewInstanceError.hookResponseType) := by
  refine ⟨?_, ?_, ?_⟩
  · simp [NewInstance, hbuild]
  · intro client msg hh
    simp [NewInstance, hbuild, hh]
  · intro client tag hh
    simp [NewInstance, hbuild, hh]

/-- C9 witness: on a concrete cluster, the three hook-step outcomes —
silent no-op without a client, hook-invocation error, response-type
error — are observed. -/
theorem C9_hook_outcomes_witness :
    ∃ p, buildInstance reprEngine {} {} 1 false = Except.ok p ∧
      NewInstance reprEngine {} none {} 1 false = Except.ok (annotateWithPodSpec reprEngine p) ∧
      NewInstance reprEngine {} (some failClient) {} 1 false =
        Except.error (NewInstanceError.hookInvocation "boom") ∧
      NewInstance reprEngine {} (some wrongShapeClient) {} 1 false =
        Except.error NewInstanceError.hookResponseType := by
  refine ⟨_, rfl, ?_, ?_, ?_⟩
  · exact (C9_hook_outcomes reprEngine {} {} 1 false _ rfl).1
  · exact (C9_hook_outcomes reprEngine {} {} 1 false _ rfl).2.1 failClient "boom" rfl
  · exact (C9_hook_outcomes reprEngine {} {} 1 false _ rfl).2.2 wrongShapeClient "not-a-pod" rfl

end CNPG
